import Mathlib

/-!
Verification of the software-validation reporting layer of
`nautobot-plugin-device-lifecycle-mgmt`.

The definitions below are a shallow embedding of
`nautobot_device_lifecycle_mgmt/views.py` (the report aggregation,
percentage and chart helpers) and
`nautobot_device_lifecycle_mgmt/api/serializers.py` (the polymorphic
`assigned_to` serializer method).  Python dicts are modelled as
association lists over a small value type, Python floats as rationals,
raised exceptions as `Except`, and the grouped ORM aggregations as list
counting functions.
-/

/-! ### Python values, dicts and exceptions -/

/-- The Python values that flow through the report dicts: ints (SQL counts),
floats (percentages), strings (names) and `None`. Floats are modelled as
rationals. -/
inductive PyVal where
  | int (n : Int)
  | float (q : ℚ)
  | str (s : String)
  | none
deriving DecidableEq

/-- A Python dict, modelled as an association list that keeps insertion
order (as CPython dicts do). -/
abbrev PyDict := List (String × PyVal)

/-- The Python exceptions the embedded code can raise. -/
inductive PyErr where
  | keyError
  | typeError
  | indexError
deriving DecidableEq

instance {ε α : Type} [DecidableEq ε] [DecidableEq α] : DecidableEq (Except ε α) := fun x y =>
  match x, y with
  | Except.ok a, Except.ok b =>
    if h : a = b then isTrue (by rw [h]) else isFalse (by intro hc; cases hc; exact h rfl)
  | Except.error a, Except.error b =>
    if h : a = b then isTrue (by rw [h]) else isFalse (by intro hc; cases hc; exact h rfl)
  | Except.ok _, Except.error _ => isFalse (by intro hc; cases hc)
  | Except.error _, Except.ok _ => isFalse (by intro hc; cases hc)

/-- Dict lookup `d[k]`: the value at the first binding of `k`, if any. -/
def dget (d : PyDict) (k : String) : Option PyVal :=
  (List.find? (fun p => p.1 = k) d).map (fun p => p.2)

/-- Dict assignment `d[k] = v`: overwrite the binding in place when the
key exists (CPython keeps the original position), append otherwise. -/
def dset : PyDict → String → PyVal → PyDict
  | [], k, v => [(k, v)]
  | p :: ps, k, v => if p.1 = k then (k, v) :: ps else p :: dset ps k v

/-- Numeric coercion used by Python arithmetic on dict values: ints and
floats are numbers, strings and `None` are not. -/
def pyToRat : PyVal → Option ℚ
  | PyVal.int n => some (n : ℚ)
  | PyVal.float q => some q
  | _ => Option.none

/-! ### Python `round(x, 2)`

`round` on a float uses round-half-to-even.  We model the float by the
exact rational it denotes and round that rational half-to-even to two
decimal places. -/

/-- Round the fraction `n / d` (with `d ≠ 0`) to the nearest integer, ties
to the even neighbour (the rounding mode of Python `round`).  Computed on
the integers: after making the denominator positive, `f` is the floor and
the fractional part `r/D` is compared against `1/2` by comparing `2*r`
with `D`. -/
def roundHalfEvenFrac (n d : ℤ) : ℤ :=
  let N := if d < 0 then -n else n
  let D := if d < 0 then -d else d
  let f := Int.fdiv N D
  let r := N - f * D
  if 2 * r = D then (if f % 2 = 0 then f else f + 1)
  else if 2 * r < D then f else f + 1

/-- Python `round(v / t * 100, 2)` on the exact rationals `v` and `t`
(`t ≠ 0`): round half-to-even at the second decimal place.  The value
`v/t*100` is the fraction `(v.num * t.den * 100) / (v.den * t.num)`; the
two-decimal shift multiplies the numerator by a further `100`. -/
def pyRoundPct2 (v t : ℚ) : ℚ :=
  mkRat (roundHalfEvenFrac (v.num * (t.den : ℤ) * 100 * 100) ((v.den : ℤ) * t.num)) 100

/-! ### `ReportOverviewHelper.calculate_aggr_percentage` (views.py 375-387)

```python
try:
    aggr["valid_percent"] = round(aggr["valid"] / aggr["total"] * 100, 2)
except ZeroDivisionError:
    aggr["valid_percent"] = 0
return aggr
```

A missing key raises `KeyError` (not caught), a non-numeric value raises
`TypeError` (not caught), and `total == 0` raises `ZeroDivisionError`,
which is caught and replaced by the int `0`. -/

def calculate_aggr_percentage (aggr : PyDict) : Except PyErr PyDict :=
  match dget aggr "valid" with
  | Option.none => Except.error PyErr.keyError
  | some v =>
    match dget aggr "total" with
    | Option.none => Except.error PyErr.keyError
    | some t =>
      match pyToRat v, pyToRat t with
      | some vq, some tq =>
        if tq = 0 then
          Except.ok (dset aggr "valid_percent" (PyVal.int 0))
        else
          Except.ok (dset aggr "valid_percent" (PyVal.float (pyRoundPct2 vq tq)))
      | _, _ => Except.error PyErr.typeError

example : calculate_aggr_percentage
    [("total", PyVal.int 10), ("valid", PyVal.int 7)] =
    Except.ok [("total", PyVal.int 10), ("valid", PyVal.int 7),
               ("valid_percent", PyVal.float (mkRat 70 1))] := by decide

example : calculate_aggr_percentage
    [("total", PyVal.int 0), ("valid", PyVal.int 0)] =
    Except.ok [("total", PyVal.int 0), ("valid", PyVal.int 0),
               ("valid_percent", PyVal.int 0)] := by decide

example : calculate_aggr_percentage
    [("total", PyVal.int 3), ("valid", PyVal.int 1)] =
    Except.ok [("total", PyVal.int 3), ("valid", PyVal.int 1),
               ("valid_percent", PyVal.float (mkRat 3333 100))] := by decide

example : pyRoundPct2 (mkRat 1 1) (mkRat 4000 1) = mkRat 2 100 := by decide

example : pyRoundPct2 (mkRat 3 1) (mkRat 4000 1) = mkRat 8 100 := by decide

/-! ### Validation-result rows

One row per subject entity, as cached by the batch job.  The traversed
columns (`device__device_type__model`, `device__platform__name`,
`inventory_item__name`, `inventory_item__manufacturer__name`) are modelled
as non-null strings stored on the row, so `Count` of such a column inside
a group equals the number of matching rows. -/

/-- `choices.ReportRunTypeChoices`: the run-type tag of a validation
result.  The second constructor models the source's partial-run choice. -/
inductive ReportRunTypeChoices where
  | REPORT_FULL_RUN
  | REPORT_PART_RUN
deriving DecidableEq

/-- A row of the device-level validation-result table, with the related
columns the report queries traverse. -/
structure DeviceSoftwareValidationResult where
  device : Nat
  device_type_model : String
  platform_name : String
  is_validated : Bool
  software : Option Nat
  last_run : Nat
  last_updated : Nat
  run_type : ReportRunTypeChoices
deriving DecidableEq

/-- A row of the inventory-item-level validation-result table. -/
structure InventoryItemSoftwareValidationResult where
  inventory_item : Nat
  inventory_item_name : String
  manufacturer_name : String
  is_validated : Bool
  software : Option Nat
  last_run : Nat
  last_updated : Nat
  run_type : ReportRunTypeChoices
deriving DecidableEq

/-- Projections shared by the two validation-result tables, so the `Q`
filters can be evaluated against either. -/
class ValidationFields (ρ : Type) where
  is_validated : ρ → Bool
  software : ρ → Option Nat

instance : ValidationFields DeviceSoftwareValidationResult :=
  ⟨DeviceSoftwareValidationResult.is_validated, DeviceSoftwareValidationResult.software⟩

instance : ValidationFields InventoryItemSoftwareValidationResult :=
  ⟨InventoryItemSoftwareValidationResult.is_validated, InventoryItemSoftwareValidationResult.software⟩

/-! ### Django `Q` objects

The report code builds filters from `Q(is_validated=...)` and
`Q(software=None)`, combined with `~` and `&`.  One combination
(views.py:403) instead uses the Python keyword `and`, which does not build
a conjunction: `x and y` evaluates to `x` when `x` is falsy and to `y`
otherwise, and a `Q` object with at least one child is always truthy. -/

/-- The atomic `Q` filters appearing in the report queries. -/
inductive QAtom where
  | q_is_validated (b : Bool)
  | q_software_none
deriving DecidableEq

/-- `Q` expressions: atoms, `~q` and `q1 & q2`. -/
inductive QExpr where
  | atom (a : QAtom)
  | qnot (e : QExpr)
  | qand (e1 e2 : QExpr)
deriving DecidableEq

/-- Evaluate a `Q` expression as a row predicate. -/
def QExpr.eval [ValidationFields ρ] : QExpr → ρ → Bool
  | QExpr.atom (QAtom.q_is_validated b), r => ValidationFields.is_validated r == b
  | QExpr.atom QAtom.q_software_none, r =>
      decide (ValidationFields.software r = Option.none)
  | QExpr.qnot e, r => !(QExpr.eval e r)
  | QExpr.qand e1 e2, r => QExpr.eval e1 r && QExpr.eval e2 r

/-- Truthiness of the `Q` expressions built by this code: every one of
them has at least one child, and a non-empty `Q` object is truthy. -/
def QExpr.isTruthy : QExpr → Bool := fun _ => true

/-- Python `x and y` on `Q` objects: `y` when `x` is truthy, else `x`.
No conjunction is formed. -/
def pyAnd (x y : QExpr) : QExpr :=
  if QExpr.isTruthy x then y else x

/-- `Q(is_validated=True)`. -/
def q_valid : QExpr := QExpr.atom (QAtom.q_is_validated true)

/-- `Q(is_validated=False) & ~Q(software=None)`: the `invalid` filter as
written everywhere except views.py:403. -/
def q_invalid : QExpr :=
  QExpr.qand (QExpr.atom (QAtom.q_is_validated false))
    (QExpr.qnot (QExpr.atom QAtom.q_software_none))

/-- `Q(is_validated=False) and ~Q(software=None)` (views.py:403): the
Python `and` of two truthy `Q` objects, which is just `~Q(software=None)`. -/
def q_invalid_keyword_and : QExpr :=
  pyAnd (QExpr.atom (QAtom.q_is_validated false))
    (QExpr.qnot (QExpr.atom QAtom.q_software_none))

/-- `Q(software=None)`. -/
def q_no_software : QExpr := QExpr.atom QAtom.q_software_none

/-- `Count(col, filter=q)` within a group: the number of group members
satisfying the filter (the grouped column is modelled non-null). -/
def countWhere (p : ρ → Bool) (l : List ρ) : Nat :=
  (List.filter p l).length

/-! ### Grouped report querysets

`values(col).distinct().annotate(...)` groups the table by `col` and
annotates each group with the four counts (and, for the two report-table
querysets, a `valid_percent`).  `order_by("-x")` sorts descending on `x`;
we model it with insertion sort, which realises one of the orders the
database may return. -/

/-- A row of the two report-table querysets (views.py 397-408 and
494-505): the grouped column value, the four counts, and the SQL-computed
`valid_percent`. -/
structure ReportTableRow where
  group_value : String
  total : Nat
  valid : Nat
  invalid : Nat
  no_software : Nat
  valid_percent : Nat
deriving DecidableEq

/-- A row of the per-platform / per-manufacturer breakdown querysets
(views.py 426-436 and 525-535): the grouped column value and the four
counts. -/
structure BreakdownRow where
  group_value : String
  total : Nat
  valid : Nat
  invalid : Nat
  no_software : Nat
deriving DecidableEq

/-- The distinct values of the grouped column, in first-appearance order
(the order is irrelevant: every queryset is re-sorted afterwards). -/
def distinctValues (key : ρ → String) (rows : List ρ) : List String :=
  List.dedup (List.map key rows)

/-- One group of a report-table queryset: the four `Count` annotations
plus `ExpressionWrapper(100 * F("valid") / F("total"))`.  Both operands
of the division are integer `COUNT` columns, so the database divides them
as integers (truncating); the `FloatField` output type does not change
the operand types. -/
def reportTableGroup [ValidationFields ρ] (key : ρ → String) (invalid_q : QExpr)
    (rows : List ρ) (m : String) : ReportTableRow :=
  let grp := List.filter (fun r => key r = m) rows
  let total := grp.length
  let valid := countWhere (QExpr.eval q_valid) grp
  { group_value := m
    total := total
    valid := valid
    invalid := countWhere (QExpr.eval invalid_q) grp
    no_software := countWhere (QExpr.eval q_no_software) grp
    valid_percent := 100 * valid / total }

/-- One group of a breakdown queryset: the four `Count` annotations. -/
def breakdownGroup [ValidationFields ρ] (key : ρ → String)
    (rows : List ρ) (m : String) : BreakdownRow :=
  let grp := List.filter (fun r => key r = m) rows
  { group_value := m
    total := grp.length
    valid := countWhere (QExpr.eval q_valid) grp
    invalid := countWhere (QExpr.eval q_invalid) grp
    no_software := countWhere (QExpr.eval q_no_software) grp }

/-- Descending order on `valid_percent`: the sort key of
`order_by("-valid_percent")`. -/
def descValidPercent (a b : ReportTableRow) : Prop :=
  b.valid_percent ≤ a.valid_percent

/-- Descending order on `total` for report-table rows. -/
def descTotalReport (a b : ReportTableRow) : Prop :=
  b.total ≤ a.total

/-- Descending order on `total`: the sort key of `order_by("-total")`. -/
def descTotal (a b : BreakdownRow) : Prop :=
  b.total ≤ a.total

instance : DecidableRel descValidPercent := fun _ _ => Nat.decLe _ _
instance : DecidableRel descTotalReport := fun _ _ => Nat.decLe _ _
instance : DecidableRel descTotal := fun _ _ => Nat.decLe _ _
instance : IsTotal ReportTableRow descValidPercent := ⟨fun a b => Nat.le_total b.valid_percent a.valid_percent⟩
instance : IsTrans ReportTableRow descValidPercent := ⟨fun _ _ _ h1 h2 => Nat.le_trans h2 h1⟩
instance : IsTotal BreakdownRow descTotal := ⟨fun a b => Nat.le_total b.total a.total⟩
instance : IsTrans BreakdownRow descTotal := ⟨fun _ _ _ h1 h2 => Nat.le_trans h2 h1⟩

/-- `ValidatedSoftwareDeviceReportView.queryset` (views.py 397-408): group
the device results by `device__device_type__model`; the `invalid`
annotation uses the keyword-`and` filter of line 403. -/
def ValidatedSoftwareDeviceReportView_queryset
    (rows : List DeviceSoftwareValidationResult) : List ReportTableRow :=
  List.insertionSort descValidPercent
    (List.map (reportTableGroup (fun r => r.device_type_model) q_invalid_keyword_and rows)
      (distinctValues (fun r => r.device_type_model) rows))

/-- `ValidatedSoftwareInventoryItemReportView.queryset` (views.py
494-505): group the inventory-item results by `inventory_item__name`;
the `invalid` annotation uses `&`. -/
def ValidatedSoftwareInventoryItemReportView_queryset
    (rows : List InventoryItemSoftwareValidationResult) : List ReportTableRow :=
  List.insertionSort descValidPercent
    (List.map (reportTableGroup (fun r => r.inventory_item_name) q_invalid rows)
      (distinctValues (fun r => r.inventory_item_name) rows))

/-- `_platform_qs` in `ValidatedSoftwareDeviceReportView.setup` (views.py
426-436): group by `device__platform__name`, order by descending total. -/
def device_platform_qs
    (rows : List DeviceSoftwareValidationResult) : List BreakdownRow :=
  List.insertionSort descTotal
    (List.map (breakdownGroup (fun r => r.platform_name) rows)
      (distinctValues (fun r => r.platform_name) rows))

/-- `_platform_qs` in `ValidatedSoftwareInventoryItemReportView.setup`
(views.py 525-535): group by `inventory_item__manufacturer__name`, order
by descending total. -/
def inventory_manufacturer_qs
    (rows : List InventoryItemSoftwareValidationResult) : List BreakdownRow :=
  List.insertionSort descTotal
    (List.map (breakdownGroup (fun r => r.manufacturer_name) rows)
      (distinctValues (fun r => r.manufacturer_name) rows))

/-! ### Global aggregates (views.py 459-478 and 560-578) -/

/-- The `aggregate(...)` dict of
`ValidatedSoftwareDeviceReportView.get_global_aggr`, with the `name` key
added afterwards.  `Count("device")` counts the non-null `device` foreign
key, i.e. every row. -/
def device_aggr_dict (rows : List DeviceSoftwareValidationResult) : PyDict :=
  [("total", PyVal.int (rows.length : Int)),
   ("valid", PyVal.int (countWhere (QExpr.eval q_valid) rows : Int)),
   ("invalid", PyVal.int (countWhere (QExpr.eval q_invalid) rows : Int)),
   ("no_software", PyVal.int (countWhere (QExpr.eval q_no_software) rows : Int)),
   ("name", PyVal.str "Devices")]

/-- `ValidatedSoftwareDeviceReportView.get_global_aggr`: the aggregate
dict (the class always sets a filterset, so the `if` branch runs) passed
through `calculate_aggr_percentage`. -/
def ValidatedSoftwareDeviceReportView_get_global_aggr
    (rows : List DeviceSoftwareValidationResult) : Except PyErr PyDict :=
  calculate_aggr_percentage (device_aggr_dict rows)

/-- The `aggregate(...)` dict of
`ValidatedSoftwareInventoryItemReportView.get_global_aggr`, with `name`
added.  `Count("inventory_item")` counts the non-null foreign key. -/
def inventory_aggr_dict (rows : List InventoryItemSoftwareValidationResult) : PyDict :=
  [("total", PyVal.int (rows.length : Int)),
   ("valid", PyVal.int (countWhere (QExpr.eval q_valid) rows : Int)),
   ("invalid", PyVal.int (countWhere (QExpr.eval q_invalid) rows : Int)),
   ("no_software", PyVal.int (countWhere (QExpr.eval q_no_software) rows : Int)),
   ("name", PyVal.str "Inventory Items")]

/-- `ValidatedSoftwareInventoryItemReportView.get_global_aggr`. -/
def ValidatedSoftwareInventoryItemReportView_get_global_aggr
    (rows : List InventoryItemSoftwareValidationResult) : Except PyErr PyDict :=
  calculate_aggr_percentage (inventory_aggr_dict rows)

/-! ### `report_last_run` (views.py 413-423 and 513-522)

```python
report_last_run = (
    Model.objects.filter(run_type=choices.ReportRunTypeChoices.REPORT_FULL_RUN)
    .latest("last_updated").last_run)
except Model.DoesNotExist: report_last_run = None
```
-/

/-- `.latest("last_updated")`: a row with the maximal `last_updated`
(`ORDER BY last_updated DESC LIMIT 1`; on ties the database may return
any maximal row, here the earliest in list order), or `DoesNotExist` on
an empty queryset, modelled as `none`. -/
def latestByLastUpdated (key : ρ → Nat) : List ρ → Option ρ
  | [] => Option.none
  | r :: rs =>
    match latestByLastUpdated key rs with
    | Option.none => some r
    | some m => if key m > key r then some m else some r

/-- `report_last_run` for the device report: the `last_run` of the latest
full-run row, or `None` when no full-run row exists. -/
def ValidatedSoftwareDeviceReportView_report_last_run
    (rows : List DeviceSoftwareValidationResult) : Option Nat :=
  Option.map (fun r => r.last_run)
    (latestByLastUpdated (fun r => r.last_updated)
      (List.filter (fun r => r.run_type = ReportRunTypeChoices.REPORT_FULL_RUN) rows))

/-- `report_last_run` for the inventory-item report. -/
def ValidatedSoftwareInventoryItemReportView_report_last_run
    (rows : List InventoryItemSoftwareValidationResult) : Option Nat :=
  Option.map (fun r => r.last_run)
    (latestByLastUpdated (fun r => r.last_updated)
      (List.filter (fun r => r.run_type = ReportRunTypeChoices.REPORT_FULL_RUN) rows))

/-! ### Pie-chart helper (views.py 283-310)

`plot_piechart_visual(aggr, pie_chart_attrs)` returns `None` when the
value at the first aggregation label is `None`; otherwise it renders the
pie with matplotlib, writes the figure to an in-memory buffer as PNG,
base64-encodes the buffer and URL-quotes the result.  The rendered pixel
data depends on matplotlib and is kept abstract as `figPayload`; what the
embedding keeps faithful is the control flow (which keys are read, in
which order, and which accesses raise `KeyError`), the PNG signature that
every `savefig(..., format="png")` output starts with, the base64
encoding and the URL quoting. -/

/-- Every PNG stream begins with this fixed 8-byte signature. -/
def pngSignature : List Nat := [137, 80, 78, 71, 13, 10, 26, 10]

/-- The bytes `fig.savefig(buf, format="png")` writes: the PNG signature
followed by figure-dependent data, abstracted as `figPayload`. -/
def savefig_png (figPayload : List Nat) : List Nat :=
  pngSignature ++ figPayload

/-- The base64 alphabet. -/
def base64Table : List Char :=
  String.toList "ABCDEFGHIJKLMNOPQRSTUVWXYZabcdefghijklmnopqrstuvwxyz0123456789+/"

/-- The base64 digit for a 6-bit value. -/
def b64Char (n : Nat) : Char :=
  List.getD base64Table n 'A'

/-- `base64.b64encode`: standard base64 with `=` padding, 3 input bytes
to 4 output characters. -/
def base64_b64encode : List Nat → List Char
  | [] => []
  | [b1] => [b64Char (b1 / 4 % 64), b64Char (b1 % 4 * 16), '=', '=']
  | [b1, b2] =>
      [b64Char (b1 / 4 % 64), b64Char (b1 % 4 * 16 + b2 / 16), b64Char (b2 % 16 * 4), '=']
  | b1 :: b2 :: b3 :: rest =>
      b64Char (b1 / 4 % 64) :: b64Char (b1 % 4 * 16 + b2 / 16) ::
        b64Char (b2 % 16 * 4 + b3 / 64) :: b64Char (b3 % 64) :: base64_b64encode rest

/-- Characters `urllib.parse.quote` leaves unescaped with the default
`safe="/"`: unreserved characters and the slash. -/
def isUrlSafe (c : Char) : Bool :=
  c.isAlphanum || c = '-' || c = '.' || c = '_' || c = '~' || c = '/'

/-- Upper-case hexadecimal digit. -/
def hexUpper (n : Nat) : Char :=
  List.getD (String.toList "0123456789ABCDEF") n '0'

/-- Percent-encoding of one character. -/
def quoteChar (c : Char) : List Char :=
  if isUrlSafe c then [c]
  else ['%', hexUpper (c.toNat / 16 % 16), hexUpper (c.toNat % 16)]

/-- `urllib.parse.quote` over the encoded characters. -/
def urllib_parse_quote (cs : List Char) : String :=
  String.mk (List.flatten (List.map quoteChar cs))

/-- The `pie_chart_attrs` dict built in both report views: the
aggregation labels read from the tally and the display labels. -/
structure PieChartAttrs where
  aggr_labels : List String
  chart_labels : List String

/-- The concrete `pie_chart_attrs` of views.py 438-441 and 538-541. -/
def pie_chart_attrs : PieChartAttrs :=
  { aggr_labels := ["valid", "invalid", "no_software"]
    chart_labels := ["Valid", "Invalid", "No Software"] }

/-- `ReportOverviewHelper.plot_piechart_visual`.  Reads
`aggr[labels[0]]` (`IndexError` on empty labels, `KeyError` on a missing
key), returns `None` when that value is Python `None`, otherwise builds
`sizes` (reading every label, `KeyError` on a missing one), renders,
titles with `aggr["name"]` (`KeyError` if missing) and returns the
URL-quoted base64 PNG. -/
def plot_piechart_visual (figPayload : List Nat) (aggr : PyDict)
    (attrs : PieChartAttrs) : Except PyErr (Option String) :=
  match attrs.aggr_labels with
  | [] => Except.error PyErr.indexError
  | l0 :: _ =>
    match dget aggr l0 with
    | Option.none => Except.error PyErr.keyError
    | some PyVal.none => Except.ok Option.none
    | some _ =>
      if List.all attrs.aggr_labels (fun l => (dget aggr l).isSome) then
        match dget aggr "name" with
        | Option.none => Except.error PyErr.keyError
        | some _ =>
            Except.ok (some (urllib_parse_quote (base64_b64encode (savefig_png figPayload))))
      else Except.error PyErr.keyError

example : urllib_parse_quote (base64_b64encode pngSignature) = "iVBORw0KGgo%3D" := by decide

/-! ### `ValidatedSoftwareLCMSerializer.get_assigned_to` (serializers.py 131-138)

```python
if obj.assigned_to is None:
    return None
serializer = get_serializer_for_model(obj.assigned_to, prefix="Nested")
return serializer(obj.assigned_to, context=context).data
```
-/

/-- The content types `assigned_to_content_type` is limited to
(serializers.py 99-110). -/
inductive AssignedToContentType where
  | device
  | devicetype
  | inventoryitem
deriving DecidableEq

/-- A row of one of the three target tables, identified by its content
type and object id. -/
structure DcimObject where
  content_type : AssignedToContentType
  object_id : Nat
  display : String
deriving DecidableEq

/-- Modelled from the spec: the `ValidatedSoftwareLCM` model (its
`models.py` is not among the reviewed sources) carries a polymorphic
reference "content-type + object-id" to a device, device type or
inventory item; `assigned_to` is the generic foreign key built from the
pair.  An unassigned reference is modelled as a missing object id. -/
structure ValidatedSoftwareLCM_rec where
  assigned_to_content_type : AssignedToContentType
  assigned_to_object_id : Option Nat

/-- Modelled from the spec: generic-foreign-key resolution looks the
object id up in the table named by the content type, yielding `None` when
the referenced object does not exist. -/
def genericForeignKey (db : List DcimObject) (ct : AssignedToContentType)
    (oid : Nat) : Option DcimObject :=
  List.find? (fun o => o.content_type == ct && o.object_id == oid) db

/-- `obj.assigned_to`: the generic foreign key of the record, `None` when
unassigned or when the referenced object no longer exists. -/
def assigned_to (db : List DcimObject) (rec : ValidatedSoftwareLCM_rec) : Option DcimObject :=
  Option.bind rec.assigned_to_object_id
    (genericForeignKey db rec.assigned_to_content_type)

/-- The nested representation `get_serializer_for_model(obj,
prefix="Nested")` produces for a target object. -/
structure NestedRepr where
  content_type : AssignedToContentType
  object_id : Nat
  display : String
deriving DecidableEq

/-- Serialize a target object with its nested serializer. -/
def nestedSerialize (o : DcimObject) : NestedRepr :=
  { content_type := o.content_type, object_id := o.object_id, display := o.display }

/-- `ValidatedSoftwareLCMSerializer.get_assigned_to`. -/
def ValidatedSoftwareLCMSerializer_get_assigned_to
    (db : List DcimObject) (rec : ValidatedSoftwareLCM_rec) : Option NestedRepr :=
  match assigned_to db rec with
  | Option.none => Option.none
  | some target => some (nestedSerialize target)

/-! ### Dictionary lemmas -/

theorem dget_nil (k : String) : dget [] k = Option.none := rfl

theorem dget_cons (p : String × PyVal) (d : PyDict) (k : String) :
    dget (p :: d) k = if p.1 = k then some p.2 else dget d k := by
  by_cases h : p.1 = k <;> simp [dget, List.find?, h]

theorem dget_dset_self (d : PyDict) (k : String) (v : PyVal) :
    dget (dset d k v) k = some v := by
  induction d with
  | nil => simp [dset, dget_cons]
  | cons p ps ih =>
    by_cases h : p.1 = k
    · simp [dset, h, dget_cons]
    · simp [dset, h, dget_cons, ih]

theorem dget_dset_ne (d : PyDict) (k k2 : String) (v : PyVal) (h : k2 ≠ k) :
    dget (dset d k v) k2 = dget d k2 := by
  induction d with
  | nil => simp [dset, dget_cons, dget_nil, Ne.symm h]
  | cons p ps ih =>
    by_cases hp : p.1 = k
    · simp [dset, hp, dget_cons, Ne.symm h]
    · simp [dset, hp, dget_cons, ih]

theorem dset_of_absent (d : PyDict) (k : String) (v : PyVal)
    (h : dget d k = Option.none) : dset d k v = d ++ [(k, v)] := by
  induction d with
  | nil => rfl
  | cons p ps ih =>
    rw [dget_cons] at h
    by_cases hp : p.1 = k
    · simp [hp] at h
    · simp [hp] at h
      simp [dset, hp, ih h]

theorem dget_append_single_ne (d : PyDict) (k k2 : String) (v : PyVal)
    (h : k2 ≠ k) : dget (d ++ [(k, v)]) k2 = dget d k2 := by
  induction d with
  | nil => simp [dget_cons, dget_nil, Ne.symm h]
  | cons p ps ih =>
    by_cases hp : p.1 = k2 <;> simp [dget_cons, hp, ih]

theorem keys_dset_of_absent (d : PyDict) (k : String) (v : PyVal)
    (h : dget d k = Option.none) :
    List.map Prod.fst (dset d k v) = List.map Prod.fst d ++ [k] := by
  rw [dset_of_absent d k v h]
  simp

/-! ### Lemmas about `.latest("last_updated")` -/

theorem latestBy_eq_none {ρ : Type} (key : ρ → Nat) (l : List ρ) :
    latestByLastUpdated key l = Option.none ↔ l = [] := by
  cases l with
  | nil => simp [latestByLastUpdated]
  | cons r rs =>
    simp only [latestByLastUpdated]
    cases latestByLastUpdated key rs with
    | none => simp
    | some m => by_cases h : key m > key r <;> simp [h]

theorem latestBy_mem {ρ : Type} (key : ρ → Nat) (l : List ρ) (m : ρ)
    (h : latestByLastUpdated key l = some m) : m ∈ l := by
  induction l generalizing m with
  | nil => cases h
  | cons r rs ih =>
    simp only [latestByLastUpdated] at h
    cases hrs : latestByLastUpdated key rs with
    | none =>
      rw [hrs] at h
      injection h with h2
      exact h2 ▸ List.mem_cons_self r rs
    | some m2 =>
      rw [hrs] at h
      dsimp only at h
      by_cases hgt : key m2 > key r
      · rw [if_pos hgt] at h
        injection h with h2
        exact List.mem_cons_of_mem r (h2 ▸ ih m2 hrs)
      · rw [if_neg hgt] at h
        injection h with h2
        exact h2 ▸ List.mem_cons_self r rs

theorem latestBy_le {ρ : Type} (key : ρ → Nat) (l : List ρ) (m : ρ)
    (h : latestByLastUpdated key l = some m) : ∀ x ∈ l, key x ≤ key m := by
  induction l generalizing m with
  | nil => intro x hx; cases hx
  | cons r rs ih =>
    intro x hx
    simp only [latestByLastUpdated] at h
    cases hrs : latestByLastUpdated key rs with
    | none =>
      rw [hrs] at h
      injection h with h2
      have hnil : rs = [] := (latestBy_eq_none key rs).mp hrs
      rcases List.mem_cons.mp hx with hxr | hxrs
      · rw [hxr, ← h2]
      · rw [hnil] at hxrs; cases hxrs
    | some m2 =>
      rw [hrs] at h
      dsimp only at h
      by_cases hgt : key m2 > key r
      · rw [if_pos hgt] at h
        injection h with h2
        rcases List.mem_cons.mp hx with hxr | hxrs
        · rw [hxr, ← h2]; exact Nat.le_of_lt hgt
        · rw [← h2]; exact ih m2 hrs x hxrs
      · rw [if_neg hgt] at h
        injection h with h2
        rcases List.mem_cons.mp hx with hxr | hxrs
        · rw [hxr, ← h2]
        · rw [← h2]
          exact Nat.le_trans (ih m2 hrs x hxrs) (Nat.le_of_not_lt hgt)

/-! ### Non-emptiness of the encoded chart string -/

theorem quoteChar_ne_nil (c : Char) : quoteChar c ≠ [] := by
  unfold quoteChar
  split <;> simp

theorem urlquote_cons_ne_empty (c : Char) (cs : List Char) :
    urllib_parse_quote (c :: cs) ≠ "" := by
  unfold urllib_parse_quote
  intro h
  have hd := congrArg String.data h
  simp only [List.map_cons, List.flatten_cons] at hd
  rcases List.append_eq_nil.mp hd with ⟨h1, _⟩
  exact quoteChar_ne_nil c h1

theorem b64_savefig_cons (figPayload : List Nat) :
    base64_b64encode (savefig_png figPayload) =
      'i' :: 'V' :: 'B' :: 'O' ::
        base64_b64encode (71 :: 13 :: 10 :: 26 :: 10 :: figPayload) := rfl

theorem quoted_png_ne_empty (figPayload : List Nat) :
    urllib_parse_quote (base64_b64encode (savefig_png figPayload)) ≠ "" := by
  rw [b64_savefig_cons]
  exact urlquote_cons_ne_empty _ _

/-! ### Claim C4 -/

/-- C4: for every tally dict whose `valid` is numeric and whose `total`
is a numeric zero (in particular the all-zero empty-set aggregate),
`calculate_aggr_percentage` does not raise: the `ZeroDivisionError` is
caught and `valid_percent` is set to `0`. -/
theorem C4_zero_total_no_raise (aggr : PyDict) (v t : PyVal) (vq : ℚ)
    (hv : dget aggr "valid" = some v) (hvq : pyToRat v = some vq)
    (ht : dget aggr "total" = some t) (htq : pyToRat t = some 0) :
    calculate_aggr_percentage aggr =
      Except.ok (dset aggr "valid_percent" (PyVal.int 0)) ∧
    dget (dset aggr "valid_percent" (PyVal.int 0)) "valid_percent" =
      some (PyVal.int 0) := by
  refine ⟨?_, dget_dset_self aggr "valid_percent" (PyVal.int 0)⟩
  simp [calculate_aggr_percentage, hv, ht, hvq, htq]

/-- Witness for C4 at the all-zero aggregate over the empty result set. -/
theorem C4_zero_total_no_raise_witness :
    calculate_aggr_percentage (device_aggr_dict []) =
      Except.ok (dset (device_aggr_dict []) "valid_percent" (PyVal.int 0)) ∧
    dget (dset (device_aggr_dict []) "valid_percent" (PyVal.int 0)) "valid_percent" =
      some (PyVal.int 0) :=
  C4_zero_total_no_raise (device_aggr_dict []) (PyVal.int 0) (PyVal.int 0) 0
    (by decide) (by decide) (by decide) (by decide)

/-! ### Claim C10 -/

/-- An input dict that already carries a `valid_percent` binding. -/
def c10_aggr : PyDict :=
  [("valid", PyVal.int 1), ("total", PyVal.int 2), ("valid_percent", PyVal.int 7)]

/-- C10 counterexample: on an input that already contains `valid_percent`,
`calculate_aggr_percentage` overwrites that pair — the input pair
`("valid_percent", 7)` is not preserved — and adds no key at all (the
result has as many bindings as the input), contradicting the claim for
arbitrary inputs containing `valid` and `total`. -/
theorem C10_counterexample :
    calculate_aggr_percentage c10_aggr =
      Except.ok [("valid", PyVal.int 1), ("total", PyVal.int 2),
                 ("valid_percent", PyVal.float (mkRat 50 1))] ∧
    dget c10_aggr "valid_percent" = some (PyVal.int 7) ∧
    (some (PyVal.float (mkRat 50 1)) : Option PyVal) ≠ some (PyVal.int 7) ∧
    List.length [("valid", PyVal.int 1), ("total", PyVal.int 2),
                 ("valid_percent", PyVal.float (mkRat 50 1))] =
      List.length c10_aggr := by decide

/-- C10 (amended): for every input dict that contains numeric `valid` and
`total` and does not yet contain `valid_percent`, the function returns
the input dict with exactly the binding `("valid_percent", pv)` appended:
every input pair is unchanged, lookups at other keys are unchanged, and
the key sequence gains exactly `valid_percent` at the end. -/
theorem C10_frame (d : PyDict) (v t : PyVal) (vq tq : ℚ)
    (hv : dget d "valid" = some v) (hvq : pyToRat v = some vq)
    (ht : dget d "total" = some t) (htq : pyToRat t = some tq)
    (hab : dget d "valid_percent" = Option.none) :
    ∃ pv : PyVal,
      calculate_aggr_percentage d = Except.ok (d ++ [("valid_percent", pv)]) ∧
      (∀ k2, k2 ≠ "valid_percent" →
        dget (d ++ [("valid_percent", pv)]) k2 = dget d k2) ∧
      List.map Prod.fst (d ++ [("valid_percent", pv)]) =
        List.map Prod.fst d ++ ["valid_percent"] := by
  by_cases h0 : tq = 0
  · refine ⟨PyVal.int 0, ?_, ?_, by simp⟩
    · rw [← dset_of_absent d "valid_percent" (PyVal.int 0) hab]
      simp [calculate_aggr_percentage, hv, ht, hvq, htq, h0]
    · intro k2 hk2
      exact dget_append_single_ne d "valid_percent" k2 (PyVal.int 0) hk2
  · refine ⟨PyVal.float (pyRoundPct2 vq tq), ?_, ?_, by simp⟩
    · rw [← dset_of_absent d "valid_percent" (PyVal.float (pyRoundPct2 vq tq)) hab]
      simp [calculate_aggr_percentage, hv, ht, hvq, htq, h0]
    · intro k2 hk2
      exact dget_append_single_ne d "valid_percent" k2 (PyVal.float (pyRoundPct2 vq tq)) hk2

/-- An input dict for the C10 witness: no `valid_percent` key yet. -/
def c10_wit_aggr : PyDict :=
  [("valid", PyVal.int 1), ("total", PyVal.int 2), ("name", PyVal.str "Devices")]

/-- Witness for C10 at a concrete dict without a `valid_percent` key. -/
theorem C10_frame_witness :
    ∃ pv : PyVal,
      calculate_aggr_percentage c10_wit_aggr =
        Except.ok (c10_wit_aggr ++ [("valid_percent", pv)]) ∧
      (∀ k2, k2 ≠ "valid_percent" →
        dget (c10_wit_aggr ++ [("valid_percent", pv)]) k2 = dget c10_wit_aggr k2) ∧
      List.map Prod.fst (c10_wit_aggr ++ [("valid_percent", pv)]) =
        List.map Prod.fst c10_wit_aggr ++ ["valid_percent"] :=
  C10_frame c10_wit_aggr (PyVal.int 1) (PyVal.int 2) 1 2
    (by decide) (by decide) (by decide) (by decide) (by decide)

/-! ### Claim C6 -/

/-- C6 counterexample: on a tally dict from which the `valid` key is
absent, the pie-chart helper raises `KeyError` — it does not return "no
image" (`None`) as the claim states for an absent field. -/
theorem C6_counterexample :
    plot_piechart_visual [] [] pie_chart_attrs = Except.error PyErr.keyError ∧
    (Except.error PyErr.keyError : Except PyErr (Option String)) ≠
      Except.ok Option.none := by decide

/-- C6 (amended): the pie-chart helper returns no image exactly when the
`valid` field is present and null; an absent accessed key raises
`KeyError`; and when `valid` is present and non-null and the other
accessed fields (`invalid`, `no_software`, `name`) are present it returns
a non-empty URL-quoted base64 PNG string. -/
theorem C6_piechart (figPayload : List Nat) (aggr : PyDict) :
    (dget aggr "valid" = some PyVal.none →
      plot_piechart_visual figPayload aggr pie_chart_attrs = Except.ok Option.none) ∧
    (dget aggr "valid" = Option.none →
      plot_piechart_visual figPayload aggr pie_chart_attrs =
        Except.error PyErr.keyError) ∧
    (∀ v, dget aggr "valid" = some v → v ≠ PyVal.none →
      (dget aggr "invalid").isSome = true →
      (dget aggr "no_software").isSome = true →
      ∀ nv, dget aggr "name" = some nv →
        plot_piechart_visual figPayload aggr pie_chart_attrs =
          Except.ok (some (urllib_parse_quote (base64_b64encode (savefig_png figPayload)))) ∧
        urllib_parse_quote (base64_b64encode (savefig_png figPayload)) ≠ "") := by
  refine ⟨?_, ?_, ?_⟩
  · intro hv
    simp [plot_piechart_visual, pie_chart_attrs, hv]
  · intro hv
    simp [plot_piechart_visual, pie_chart_attrs, hv]
  · intro v hv hvne hi hn nv hnv
    refine ⟨?_, quoted_png_ne_empty figPayload⟩
    cases v with
    | none => exact absurd rfl hvne
    | int n => simp [plot_piechart_visual, pie_chart_attrs, hv, hi, hn, hnv]
    | float q => simp [plot_piechart_visual, pie_chart_attrs, hv, hi, hn, hnv]
    | str s => simp [plot_piechart_visual, pie_chart_attrs, hv, hi, hn, hnv]

/-- A complete tally over ten devices, used to witness the rendering
branch of C6. -/
def c6_wit_aggr : PyDict :=
  [("total", PyVal.int 10), ("valid", PyVal.int 7), ("invalid", PyVal.int 2),
   ("no_software", PyVal.int 1), ("name", PyVal.str "Devices"),
   ("valid_percent", PyVal.float (mkRat 70 1))]

/-- Witness for C6: a present, non-null tally yields a non-empty encoded
image. -/
theorem C6_piechart_witness :
    plot_piechart_visual [] c6_wit_aggr pie_chart_attrs =
      Except.ok (some (urllib_parse_quote (base64_b64encode (savefig_png [])))) ∧
    urllib_parse_quote (base64_b64encode (savefig_png [])) ≠ "" :=
  (C6_piechart [] c6_wit_aggr).2.2 (PyVal.int 7) (by decide) (by decide)
    (by decide) (by decide) (PyVal.str "Devices") (by decide)

/-! ### Claim C7 -/

/-- The degenerate all-zero tally, all fields present and non-null. -/
def all_zero_aggr : PyDict :=
  [("total", PyVal.int 0), ("valid", PyVal.int 0), ("invalid", PyVal.int 0),
   ("no_software", PyVal.int 0), ("name", PyVal.str "Devices"),
   ("valid_percent", PyVal.int 0)]

/-- C7 counterexample: on the all-zero tally the pie-chart helper does
not short-circuit before drawing — with the abstract figure bytes
instantiated to `[]` it runs the rendering path and returns an encoded
image (the quoted base64 of the PNG signature), not the `None` of the
short-circuit branch. -/
theorem C7_counterexample :
    plot_piechart_visual [] all_zero_aggr pie_chart_attrs =
      Except.ok (some "iVBORw0KGgo%3D") ∧
    (Except.ok (some "iVBORw0KGgo%3D") : Except PyErr (Option String)) ≠
      Except.ok Option.none := by decide

/-- C7 (amended): the helper short-circuits only when the first
aggregation field is `None`; on the all-zero tally it renders and returns
the encoded image, whatever bytes the renderer produces. -/
theorem C7_all_zero_renders (figPayload : List Nat) :
    plot_piechart_visual figPayload all_zero_aggr pie_chart_attrs =
      Except.ok (some (urllib_parse_quote (base64_b64encode (savefig_png figPayload)))) := rfl

/-! ### Claim C1 -/

/-- A single validated device row with software installed. -/
def c1_row : DeviceSoftwareValidationResult :=
  { device := 1, device_type_model := "CSR1000v", platform_name := "IOS-XE",
    is_validated := true, software := some 1, last_run := 1, last_updated := 1,
    run_type := ReportRunTypeChoices.REPORT_FULL_RUN }

/-- C1: the device-type report queryset's `invalid` annotation does not
count `is_validated=false AND software non-null` rows.  On a single
validated row with software installed it reports `invalid = 1`, although
no row satisfies the claimed predicate: views.py:403 combines the two
`Q` objects with the Python keyword `and`, which discards
`Q(is_validated=False)` and leaves `~Q(software=None)` alone. -/
theorem C1_invalid_annotation :
    ValidatedSoftwareDeviceReportView_queryset [c1_row] =
      [{ group_value := "CSR1000v", total := 1, valid := 1, invalid := 1,
         no_software := 0, valid_percent := 100 }] ∧
    countWhere (QExpr.eval q_invalid) [c1_row] = 0 := by decide

/-! ### Claim C2 -/

/-- A single validated device row with software installed. -/
def c2_row : DeviceSoftwareValidationResult :=
  { device := 2, device_type_model := "EX4300", platform_name := "Junos",
    is_validated := true, software := some 2, last_run := 1, last_updated := 1,
    run_type := ReportRunTypeChoices.REPORT_FULL_RUN }

/-- The tally the device-type report queryset produces for `c2_row`. -/
def c2_tally : ReportTableRow :=
  { group_value := "EX4300", total := 1, valid := 1, invalid := 1,
    no_software := 0, valid_percent := 100 }

/-- C2: the counts of the per-device-type report tally do not partition
the result set: on a single validated row with software the tally has
`valid + invalid + no_software = 2` but `total = 1` (the row is counted
both as valid and — through the keyword-`and` filter of views.py:403 —
as invalid). -/
theorem C2_partition :
    ValidatedSoftwareDeviceReportView_queryset [c2_row] = [c2_tally] ∧
    c2_tally.valid + c2_tally.invalid + c2_tally.no_software ≠ c2_tally.total := by decide

/-! ### Claim C3 -/

/-- Three rows of one device type: one validated, two not, all with
software installed. -/
def c3_rows : List DeviceSoftwareValidationResult :=
  [{ device := 1, device_type_model := "C9300", platform_name := "IOS",
     is_validated := true, software := some 1, last_run := 1, last_updated := 1,
     run_type := ReportRunTypeChoices.REPORT_FULL_RUN },
   { device := 2, device_type_model := "C9300", platform_name := "IOS",
     is_validated := false, software := some 1, last_run := 1, last_updated := 1,
     run_type := ReportRunTypeChoices.REPORT_FULL_RUN },
   { device := 3, device_type_model := "C9300", platform_name := "IOS",
     is_validated := false, software := some 2, last_run := 1, last_updated := 1,
     run_type := ReportRunTypeChoices.REPORT_FULL_RUN }]

/-- C3 counterexample: the per-group report tally for one valid row out
of three carries `valid_percent = 33` (the SQL integer quotient
`100 * 1 / 3`), while `round(valid/total*100, 2) = 33.33`; the two
differ, so the per-group `valid_percent` is not the rounded exact
rational of the claim. -/
theorem C3_counterexample :
    ValidatedSoftwareDeviceReportView_queryset c3_rows =
      [{ group_value := "C9300", total := 3, valid := 1, invalid := 3,
         no_software := 0, valid_percent := 33 }] ∧
    (mkRat 33 1 : ℚ) ≠ pyRoundPct2 (mkRat 1 1) (mkRat 3 1) := by decide

/-- The `calculate_aggr_percentage` result on the shape of the global
aggregate dicts with a non-zero total. -/
theorem global_aggr_calc (tot vai inv nos : Nat) (nm : String) (hne : tot ≠ 0) :
    calculate_aggr_percentage
      [("total", PyVal.int (tot : Int)), ("valid", PyVal.int (vai : Int)),
       ("invalid", PyVal.int (inv : Int)), ("no_software", PyVal.int (nos : Int)),
       ("name", PyVal.str nm)] =
      Except.ok
        ([("total", PyVal.int (tot : Int)), ("valid", PyVal.int (vai : Int)),
          ("invalid", PyVal.int (inv : Int)), ("no_software", PyVal.int (nos : Int)),
          ("name", PyVal.str nm)] ++
         [("valid_percent",
           PyVal.float (pyRoundPct2 ((vai : Int) : ℚ) ((tot : Int) : ℚ)))]) := by
  simp [calculate_aggr_percentage, dget_cons, dget_nil, pyToRat, hne]
  rw [dset_of_absent]
  all_goals rfl

/-- C3 (amended): the two global tallies set `valid_percent` to
`round(valid/total*100, 2)` on the exact counts (when `total > 0`), while
the two per-group report-table querysets set it to the integer quotient
`100 * valid / total`. -/
theorem C3_valid_percent :
    (∀ rows : List DeviceSoftwareValidationResult, rows ≠ [] →
      ValidatedSoftwareDeviceReportView_get_global_aggr rows =
        Except.ok (device_aggr_dict rows ++
          [("valid_percent", PyVal.float (pyRoundPct2
            ((countWhere (QExpr.eval q_valid) rows : Int) : ℚ)
            ((rows.length : Int) : ℚ)))])) ∧
    (∀ rows : List InventoryItemSoftwareValidationResult, rows ≠ [] →
      ValidatedSoftwareInventoryItemReportView_get_global_aggr rows =
        Except.ok (inventory_aggr_dict rows ++
          [("valid_percent", PyVal.float (pyRoundPct2
            ((countWhere (QExpr.eval q_valid) rows : Int) : ℚ)
            ((rows.length : Int) : ℚ)))])) ∧
    (∀ rows : List DeviceSoftwareValidationResult,
      ∀ row ∈ ValidatedSoftwareDeviceReportView_queryset rows,
        row.valid_percent = 100 * row.valid / row.total) ∧
    (∀ rows : List InventoryItemSoftwareValidationResult,
      ∀ row ∈ ValidatedSoftwareInventoryItemReportView_queryset rows,
        row.valid_percent = 100 * row.valid / row.total) := by
  refine ⟨?_, ?_, ?_, ?_⟩
  · intro rows hne
    exact global_aggr_calc rows.length (countWhere (QExpr.eval q_valid) rows)
      (countWhere (QExpr.eval q_invalid) rows)
      (countWhere (QExpr.eval q_no_software) rows) "Devices"
      (by simpa [List.length_eq_zero] using hne)
  · intro rows hne
    exact global_aggr_calc rows.length (countWhere (QExpr.eval q_valid) rows)
      (countWhere (QExpr.eval q_invalid) rows)
      (countWhere (QExpr.eval q_no_software) rows) "Inventory Items"
      (by simpa [List.length_eq_zero] using hne)
  · intro rows row hmem
    rw [ValidatedSoftwareDeviceReportView_queryset, List.mem_insertionSort] at hmem
    obtain ⟨m, _, heq⟩ := List.mem_map.mp hmem
    rw [← heq]
    rfl
  · intro rows row hmem
    rw [ValidatedSoftwareInventoryItemReportView_queryset, List.mem_insertionSort] at hmem
    obtain ⟨m, _, heq⟩ := List.mem_map.mp hmem
    rw [← heq]
    rfl

/-- A one-row result set for the C3 witness. -/
def c3_wit_row : DeviceSoftwareValidationResult :=
  { device := 9, device_type_model := "MX204", platform_name := "Junos",
    is_validated := true, software := some 3, last_run := 2, last_updated := 2,
    run_type := ReportRunTypeChoices.REPORT_FULL_RUN }

/-- Witness for C3 at a one-row result set. -/
theorem C3_valid_percent_witness :
    ValidatedSoftwareDeviceReportView_get_global_aggr [c3_wit_row] =
      Except.ok (device_aggr_dict [c3_wit_row] ++
        [("valid_percent", PyVal.float (pyRoundPct2
          ((countWhere (QExpr.eval q_valid) [c3_wit_row] : Int) : ℚ)
          (([c3_wit_row].length : Int) : ℚ)))]) :=
  C3_valid_percent.1 [c3_wit_row] (List.cons_ne_nil _ _)

/-! ### Claim C5 -/

/-- Two device types: "A" with two non-validated rows without software
(0 percent valid), "B" with one validated row (100 percent valid). -/
def c5_rows : List DeviceSoftwareValidationResult :=
  [{ device := 1, device_type_model := "A", platform_name := "P",
     is_validated := false, software := Option.none, last_run := 1,
     last_updated := 1, run_type := ReportRunTypeChoices.REPORT_FULL_RUN },
   { device := 2, device_type_model := "A", platform_name := "P",
     is_validated := false, software := Option.none, last_run := 1,
     last_updated := 1, run_type := ReportRunTypeChoices.REPORT_FULL_RUN },
   { device := 3, device_type_model := "B", platform_name := "P",
     is_validated := true, software := some 1, last_run := 1,
     last_updated := 1, run_type := ReportRunTypeChoices.REPORT_FULL_RUN }]

/-- C5 counterexample: the device report-table queryset is ordered by
descending `valid_percent`, not descending `total`: on `c5_rows` it
returns totals `[1, 2]`, an order that is not descending by `total`. -/
theorem C5_counterexample :
    ValidatedSoftwareDeviceReportView_queryset c5_rows =
      [{ group_value := "B", total := 1, valid := 1, invalid := 1,
         no_software := 0, valid_percent := 100 },
       { group_value := "A", total := 2, valid := 0, invalid := 0,
         no_software := 2, valid_percent := 0 }] ∧
    ¬ List.Sorted descTotalReport (ValidatedSoftwareDeviceReportView_queryset c5_rows) := by
  decide

/-- C5 (amended): the per-platform and per-manufacturer breakdowns fed to
the bar chart are sorted by descending `total`; the two report-table
querysets are instead sorted by descending `valid_percent`. -/
theorem C5_ordering :
    (∀ rows : List DeviceSoftwareValidationResult,
      List.Sorted descTotal (device_platform_qs rows)) ∧
    (∀ rows : List InventoryItemSoftwareValidationResult,
      List.Sorted descTotal (inventory_manufacturer_qs rows)) ∧
    (∀ rows : List DeviceSoftwareValidationResult,
      List.Sorted descValidPercent (ValidatedSoftwareDeviceReportView_queryset rows)) ∧
    (∀ rows : List InventoryItemSoftwareValidationResult,
      List.Sorted descValidPercent
        (ValidatedSoftwareInventoryItemReportView_queryset rows)) :=
  ⟨fun _ => List.sorted_insertionSort descTotal _,
   fun _ => List.sorted_insertionSort descTotal _,
   fun _ => List.sorted_insertionSort descValidPercent _,
   fun _ => List.sorted_insertionSort descValidPercent _⟩

/-! ### Claim C8 -/

/-- C8: `report_last_run` is computed from full-run rows only — it
depends only on the full-run rows of the table, it is `None` exactly when
no full-run row exists, and any value it reports is the `last_run` of a
full-run row whose `last_updated` is maximal among full-run rows. -/
theorem C8_report_last_run :
    (∀ rows : List DeviceSoftwareValidationResult,
      (∀ rows2, List.filter
          (fun r => r.run_type = ReportRunTypeChoices.REPORT_FULL_RUN) rows =
        List.filter
          (fun r => r.run_type = ReportRunTypeChoices.REPORT_FULL_RUN) rows2 →
        ValidatedSoftwareDeviceReportView_report_last_run rows =
          ValidatedSoftwareDeviceReportView_report_last_run rows2) ∧
      (ValidatedSoftwareDeviceReportView_report_last_run rows = Option.none ↔
        List.filter
          (fun r => r.run_type = ReportRunTypeChoices.REPORT_FULL_RUN) rows = []) ∧
      (∀ v, ValidatedSoftwareDeviceReportView_report_last_run rows = some v →
        ∃ r, r ∈ rows ∧ r.run_type = ReportRunTypeChoices.REPORT_FULL_RUN ∧
          r.last_run = v ∧
          ∀ s, s ∈ rows → s.run_type = ReportRunTypeChoices.REPORT_FULL_RUN →
            s.last_updated ≤ r.last_updated)) ∧
    (∀ rows : List InventoryItemSoftwareValidationResult,
      (∀ rows2, List.filter
          (fun r => r.run_type = ReportRunTypeChoices.REPORT_FULL_RUN) rows =
        List.filter
          (fun r => r.run_type = ReportRunTypeChoices.REPORT_FULL_RUN) rows2 →
        ValidatedSoftwareInventoryItemReportView_report_last_run rows =
          ValidatedSoftwareInventoryItemReportView_report_last_run rows2) ∧
      (ValidatedSoftwareInventoryItemReportView_report_last_run rows = Option.none ↔
        List.filter
          (fun r => r.run_type = ReportRunTypeChoices.REPORT_FULL_RUN) rows = []) ∧
      (∀ v, ValidatedSoftwareInventoryItemReportView_report_last_run rows = some v →
        ∃ r, r ∈ rows ∧ r.run_type = ReportRunTypeChoices.REPORT_FULL_RUN ∧
          r.last_run = v ∧
          ∀ s, s ∈ rows → s.run_type = ReportRunTypeChoices.REPORT_FULL_RUN →
            s.last_updated ≤ r.last_updated)) := by
  constructor
  · intro rows
    refine ⟨?_, ?_, ?_⟩
    · intro rows2 hf
      rw [ValidatedSoftwareDeviceReportView_report_last_run,
        ValidatedSoftwareDeviceReportView_report_last_run, hf]
    · rw [ValidatedSoftwareDeviceReportView_report_last_run]
      rw [Option.map_eq_none']
      exact latestBy_eq_none _ _
    · intro v hv
      rw [ValidatedSoftwareDeviceReportView_report_last_run] at hv
      obtain ⟨m, hm, hmv⟩ := Option.map_eq_some'.mp hv
      have hmem := latestBy_mem _ _ _ hm
      have hmax := latestBy_le _ _ _ hm
      rw [List.mem_filter] at hmem
      refine ⟨m, hmem.1, by simpa using hmem.2, hmv, ?_⟩
      intro s hs hsf
      exact hmax s (List.mem_filter.mpr ⟨hs, by simpa using hsf⟩)
  · intro rows
    refine ⟨?_, ?_, ?_⟩
    · intro rows2 hf
      rw [ValidatedSoftwareInventoryItemReportView_report_last_run,
        ValidatedSoftwareInventoryItemReportView_report_last_run, hf]
    · rw [ValidatedSoftwareInventoryItemReportView_report_last_run]
      rw [Option.map_eq_none']
      exact latestBy_eq_none _ _
    · intro v hv
      rw [ValidatedSoftwareInventoryItemReportView_report_last_run] at hv
      obtain ⟨m, hm, hmv⟩ := Option.map_eq_some'.mp hv
      have hmem := latestBy_mem _ _ _ hm
      have hmax := latestBy_le _ _ _ hm
      rw [List.mem_filter] at hmem
      refine ⟨m, hmem.1, by simpa using hmem.2, hmv, ?_⟩
      intro s hs hsf
      exact hmax s (List.mem_filter.mpr ⟨hs, by simpa using hsf⟩)

/-- A full-run row (older timestamp) next to a partial-run row (newer
timestamp) for the C8 witness. -/
def c8_rows : List DeviceSoftwareValidationResult :=
  [{ device := 1, device_type_model := "A", platform_name := "P",
     is_validated := true, software := some 1, last_run := 5,
     last_updated := 10, run_type := ReportRunTypeChoices.REPORT_FULL_RUN },
   { device := 2, device_type_model := "A", platform_name := "P",
     is_validated := true, software := some 1, last_run := 9,
     last_updated := 20, run_type := ReportRunTypeChoices.REPORT_PART_RUN }]

/-- Witness for C8: the reported value `5` comes from a maximal full-run
row even though a newer partial-run row exists. -/
theorem C8_report_last_run_witness :
    ∃ r, r ∈ c8_rows ∧ r.run_type = ReportRunTypeChoices.REPORT_FULL_RUN ∧
      r.last_run = 5 ∧
      ∀ s, s ∈ c8_rows → s.run_type = ReportRunTypeChoices.REPORT_FULL_RUN →
        s.last_updated ≤ r.last_updated :=
  (C8_report_last_run.1 c8_rows).2.2 5 (by decide)

/-! ### Claim C9 -/

/-- C9: the serialized `assigned_to` is null exactly when the generic
foreign key resolves to no object, and otherwise is the nested
representation of an object whose content type and object id match the
record's polymorphic pair. -/
theorem C9_assigned_to (db : List DcimObject) (rec : ValidatedSoftwareLCM_rec) :
    (ValidatedSoftwareLCMSerializer_get_assigned_to db rec = Option.none ↔
      assigned_to db rec = Option.none) ∧
    (∀ o, assigned_to db rec = some o →
      ValidatedSoftwareLCMSerializer_get_assigned_to db rec =
        some (nestedSerialize o) ∧
      o.content_type = rec.assigned_to_content_type ∧
      rec.assigned_to_object_id = some o.object_id) := by
  constructor
  · rw [ValidatedSoftwareLCMSerializer_get_assigned_to]
    cases h : assigned_to db rec <;> simp
  · intro o ho
    refine ⟨by rw [ValidatedSoftwareLCMSerializer_get_assigned_to, ho], ?_, ?_⟩
    all_goals {
      rw [assigned_to] at ho
      rcases hoid : rec.assigned_to_object_id with _ | oid
      all_goals rw [hoid] at ho
      · simp at ho
      · simp only [Option.bind_some, Option.some_bind] at ho
        rw [genericForeignKey] at ho
        have hp := List.find?_some ho
        simp only [Bool.and_eq_true, beq_iff_eq] at hp
        simp [hoid, hp.1, hp.2]
    }

/-- A one-object database for the C9 witness. -/
def c9_db : List DcimObject :=
  [{ content_type := AssignedToContentType.device, object_id := 7, display := "rtr1" }]

/-- A record assigned to the device with id 7. -/
def c9_rec : ValidatedSoftwareLCM_rec :=
  { assigned_to_content_type := AssignedToContentType.device,
    assigned_to_object_id := some 7 }

/-- Witness for C9: a resolvable pair serializes to the nested
representation of the matching object. -/
theorem C9_assigned_to_witness :
    ValidatedSoftwareLCMSerializer_get_assigned_to c9_db c9_rec =
      some (nestedSerialize { content_type := AssignedToContentType.device,
                              object_id := 7, display := "rtr1" }) ∧
    ({ content_type := AssignedToContentType.device, object_id := 7,
       display := "rtr1" } : DcimObject).content_type =
      c9_rec.assigned_to_content_type ∧
    c9_rec.assigned_to_object_id =
      some ({ content_type := AssignedToContentType.device, object_id := 7,
              display := "rtr1" } : DcimObject).object_id :=
  (C9_assigned_to c9_db c9_rec).2
    { content_type := AssignedToContentType.device, object_id := 7, display := "rtr1" }
    (by decide)
